import Mathlib

/-!
# Verification of the RustaCUDA memory-ownership core

A shallow embedding of the memory ownership and transfer layer of the
RustaCUDA crate (`src/memory/malloc.rs`, `src/memory/device/device_box.rs`,
`src/memory/device/device_buffer.rs`, `src/memory/device.rs`,
`src/memory/locked.rs`, `src/memory/unified.rs`, `src/stream.rs`,
`src/error.rs`).

Modelling conventions:
* Machine pointers and `usize` values are `Nat`; `usize` arithmetic that the
  source performs with `checked_mul` is modelled with an explicit bound
  `USIZE = 2 ^ 64`.  The null pointer is `0`.
* A Rust element type `T` enters only through `mem::size_of::<T>()` and
  `NonNull::dangling()` (= the alignment of `T`), so it is modelled by a
  `RustType` record carrying `size` and a positive `align`.
* The native driver/runtime is an oracle `NativeEnv` giving the status (and
  out-pointer) of each raw call.  Every embedded function returns, next to its
  Rust result, the list of native calls it issued, so "no native call is made"
  and "exactly these bytes were requested" are statable.
* Functions that can panic (`assert!`, `expect`, `unwrap`) return a
  `POutcome`: either `ret` with the value or `panic` with the message.
-/

namespace RustaCuda

/-- `usize::MAX + 1` on a 64-bit target. -/
def USIZE : Nat := 2 ^ 64

/-- Rust `usize::checked_mul`: `none` exactly when the product overflows. -/
def checkedMul (a b : Nat) : Option Nat :=
  if a * b < USIZE then some (a * b) else none

/-- The data of a Rust element type `T` that the embedded code consumes:
`mem::size_of::<T>()` and `mem::align_of::<T>()` (alignment is positive). -/
structure RustType where
  size : Nat
  align : Nat
  align_pos : 0 < align

/-- The element type `u64`. -/
def u64T : RustType := ⟨8, 8, by decide⟩

/-- A zero-sized element type (as the sources' `struct ZeroSizedType;`). -/
def zstT : RustType := ⟨0, 1, by decide⟩

/-- `NonNull::dangling().as_ptr()`: the alignment of `T`, never null. -/
def dangling (t : RustType) : Nat := t.align

/-- Runtime-API status codes (`cuda_sys::cudart::cudaError_t`): the variants
the embedded code distinguishes, other codes kept abstract. -/
inductive CudaRtCode where
  | success
  | invalidValue
  | other (n : Nat)
deriving DecidableEq, Repr

/-- `CudaError` from `src/error.rs`: a driver-API code (`cudaError` — driver
success is code 0), a runtime-API code, or the local allocation error. -/
inductive CudaError where
  | cudaError (n : Nat)
  | cudaRtError (c : CudaRtCode)
  | invalidMemoryAllocation
deriving DecidableEq, Repr

/-- `CudaResult<T>` from `src/error.rs`. -/
abbrev CudaResult (α : Type) := Except CudaError α

/-- `DropResult<T> = Result<(), (CudaError, T)>` from `src/error.rs`. -/
abbrev DropResult (α : Type) := Except (CudaError × α) Unit

/-- `ToResult for cudaError_t` (runtime API) from `src/error.rs`. -/
def toResultRt (c : CudaRtCode) : CudaResult Unit :=
  if c = CudaRtCode.success then Except.ok () else Except.error (CudaError.cudaRtError c)

/-- `ToResult for cuda::cudaError_t` (driver API, success = 0) from `src/error.rs`. -/
def toResultCu (n : Nat) : CudaResult Unit :=
  if n = 0 then Except.ok () else Except.error (CudaError.cudaError n)

/-- Outcome of a Rust computation that may panic. -/
inductive POutcome (α : Type) where
  | panic (msg : String)
  | ret (a : α)
deriving DecidableEq, Repr

/-- Whether an outcome is a panic. -/
def POutcome.isPanic {α : Type} : POutcome α → Bool
  | POutcome.panic _ => true
  | POutcome.ret _ => false

/-- One raw native allocation / transfer / destruction call, recording the
argument the claims talk about (requested bytes, freed pointer, copy size). -/
inductive NativeCall where
  | cudaMalloc (bytes : Nat)
  | cudaMallocManaged (bytes : Nat)
  | cudaMallocHost (bytes : Nat)
  | cudaFree (ptr : Nat)
  | cudaFreeHost (ptr : Nat)
  | cuMemcpyHtoD (dst src bytes : Nat)
  | cuMemcpyDtoH (dst src bytes : Nat)
  | cuMemcpyDtoD (dst src bytes : Nat)
  | cuStreamDestroy (handle : Nat)
deriving DecidableEq, Repr

/-- The native driver as an oracle: the status (and out-pointer) each raw
call would return.  Allocation calls return `(status, written pointer)`;
frees and copies return their status code. -/
structure NativeEnv where
  cudaMalloc : Nat → CudaRtCode × Nat
  cudaMallocManaged : Nat → CudaRtCode × Nat
  cudaMallocHost : Nat → CudaRtCode × Nat
  cudaFree : Nat → CudaRtCode
  cudaFreeHost : Nat → CudaRtCode
  cuMemcpyHtoD : Nat → Nat → Nat → Nat
  cuMemcpyDtoH : Nat → Nat → Nat → Nat
  cuMemcpyDtoD : Nat → Nat → Nat → Nat
  cuStreamDestroy : Nat → Nat

/-- A driver in which every native call succeeds (allocators hand out a fixed
non-null pointer per memory space). -/
def envOk : NativeEnv where
  cudaMalloc := fun _ => (CudaRtCode.success, 4096)
  cudaMallocManaged := fun _ => (CudaRtCode.success, 8192)
  cudaMallocHost := fun _ => (CudaRtCode.success, 12288)
  cudaFree := fun _ => CudaRtCode.success
  cudaFreeHost := fun _ => CudaRtCode.success
  cuMemcpyHtoD := fun _ _ _ => 0
  cuMemcpyDtoH := fun _ _ _ => 0
  cuMemcpyDtoD := fun _ _ _ => 0
  cuStreamDestroy := fun _ => 0

/-- A driver in which every destruction call fails (runtime code 700 /
driver code 700), while allocations and copies succeed. -/
def envFreeFails : NativeEnv :=
  { envOk with
    cudaFree := fun _ => CudaRtCode.other 700
    cudaFreeHost := fun _ => CudaRtCode.other 700
    cuStreamDestroy := fun _ => 700 }

/-- `cuda_malloc` from `src/memory/malloc.rs` (lines 43–53):
`count.checked_mul(size_of::<T>()).unwrap_or(0)`; `InvalidValue` without any
native call when that is zero; otherwise one raw `cudaMalloc` of `size`
bytes.  `tSize` is `mem::size_of::<T>()`. -/
def cuda_malloc (env : NativeEnv) (tSize count : Nat) :
    CudaResult Nat × List NativeCall :=
  let size := (checkedMul count tSize).getD 0
  if size = 0 then
    (Except.error (CudaError.cudaRtError CudaRtCode.invalidValue), [])
  else
    let (status, p) := env.cudaMalloc size
    match toResultRt status with
    | Except.ok _ => (Except.ok p, [NativeCall.cudaMalloc size])
    | Except.error e => (Except.error e, [NativeCall.cudaMalloc size])

/-- `cuda_malloc_unified` from `src/memory/malloc.rs` (lines 87–97). -/
def cuda_malloc_unified (env : NativeEnv) (tSize count : Nat) :
    CudaResult Nat × List NativeCall :=
  let size := (checkedMul count tSize).getD 0
  if size = 0 then
    (Except.error (CudaError.cudaRtError CudaRtCode.invalidValue), [])
  else
    let (status, p) := env.cudaMallocManaged size
    match toResultRt status with
    | Except.ok _ => (Except.ok p, [NativeCall.cudaMallocManaged size])
    | Except.error e => (Except.error e, [NativeCall.cudaMallocManaged size])

/-- `cuda_malloc_locked` from `src/memory/malloc.rs` (lines 161–171). -/
def cuda_malloc_locked (env : NativeEnv) (tSize count : Nat) :
    CudaResult Nat × List NativeCall :=
  let size := (checkedMul count tSize).getD 0
  if size = 0 then
    (Except.error (CudaError.cudaRtError CudaRtCode.invalidValue), [])
  else
    let (status, p) := env.cudaMallocHost size
    match toResultRt status with
    | Except.ok _ => (Except.ok p, [NativeCall.cudaMallocHost size])
    | Except.error e => (Except.error e, [NativeCall.cudaMallocHost size])

/-- `cuda_free` from `src/memory/malloc.rs` (lines 121–129): `InvalidValue`
without a native call on null, otherwise one raw `cudaFree`. -/
def cuda_free (env : NativeEnv) (ptr : Nat) : CudaResult Unit × List NativeCall :=
  if ptr = 0 then
    (Except.error (CudaError.cudaRtError CudaRtCode.invalidValue), [])
  else
    match toResultRt (env.cudaFree ptr) with
    | Except.ok _ => (Except.ok (), [NativeCall.cudaFree ptr])
    | Except.error e => (Except.error e, [NativeCall.cudaFree ptr])

/-- `cuda_free_locked` from `src/memory/malloc.rs` (lines 195–202). -/
def cuda_free_locked (env : NativeEnv) (ptr : Nat) : CudaResult Unit × List NativeCall :=
  if ptr = 0 then
    (Except.error (CudaError.cudaRtError CudaRtCode.invalidValue), [])
  else
    match toResultRt (env.cudaFreeHost ptr) with
    | Except.ok _ => (Except.ok (), [NativeCall.cudaFreeHost ptr])
    | Except.error e => (Except.error e, [NativeCall.cudaFreeHost ptr])

/-! ## Owned single-value containers: `DeviceBox` (src/memory/device/device_box.rs) -/

/-- `DeviceBox<T>` (src/memory/device/device_box.rs line 16): one owned
device pointer. -/
structure DeviceBox where
  ptr : Nat
deriving DecidableEq, Repr

/-- `DeviceBox::uninitialized` (device_box.rs lines 60–69): null pointer and
no call for a zero-sized `T`, otherwise `cuda_malloc(1)`. -/
def DeviceBox.uninitialized (env : NativeEnv) (t : RustType) :
    CudaResult DeviceBox × List NativeCall :=
  if t.size = 0 then
    (Except.ok ⟨0⟩, [])
  else
    match cuda_malloc env t.size 1 with
    | (Except.ok p, calls) => (Except.ok ⟨p⟩, calls)
    | (Except.error e, calls) => (Except.error e, calls)

/-- `CopyDestination<T>::copy_from for DeviceBox` (device_box.rs lines
257–270): one `cuMemcpyHtoD` of `size_of::<T>()` bytes unless `T` is
zero-sized.  `valAddr` is the host address of `val`. -/
def DeviceBox.copy_from (env : NativeEnv) (t : RustType) (b : DeviceBox)
    (valAddr : Nat) : CudaResult Unit × List NativeCall :=
  if t.size ≠ 0 then
    match toResultCu (env.cuMemcpyHtoD b.ptr valAddr t.size) with
    | Except.ok _ => (Except.ok (), [NativeCall.cuMemcpyHtoD b.ptr valAddr t.size])
    | Except.error e => (Except.error e, [NativeCall.cuMemcpyHtoD b.ptr valAddr t.size])
  else
    (Except.ok (), [])

/-- `Drop for DeviceBox` (device_box.rs lines 237–249): no-op on a null
pointer; otherwise `cuda_free(ptr).expect(..)` — a panic if the free fails. -/
def DeviceBox.destructor (env : NativeEnv) (b : DeviceBox) :
    POutcome Unit × List NativeCall :=
  if b.ptr = 0 then
    (POutcome.ret (), [])
  else
    match cuda_free env b.ptr with
    | (Except.ok _, calls) => (POutcome.ret (), calls)
    | (Except.error _, calls) => (POutcome.panic "Failed to deallocate CUDA memory.", calls)

/-- `DeviceBox::new` (device_box.rs lines 35–39): `uninitialized` then
`copy_from(val)`.  When the copy fails, the `?` operator drops the freshly
made box, running its destructor (which may itself panic). -/
def DeviceBox.new (env : NativeEnv) (t : RustType) (valAddr : Nat) :
    POutcome (CudaResult DeviceBox) × List NativeCall :=
  match DeviceBox.uninitialized env t with
  | (Except.ok b, calls) =>
    match DeviceBox.copy_from env t b valAddr with
    | (Except.ok _, calls2) => (POutcome.ret (Except.ok b), calls ++ calls2)
    | (Except.error e, calls2) =>
      match DeviceBox.destructor env b with
      | (POutcome.ret _, calls3) => (POutcome.ret (Except.error e), calls ++ calls2 ++ calls3)
      | (POutcome.panic m, calls3) => (POutcome.panic m, calls ++ calls2 ++ calls3)
  | (Except.error e, calls) => (POutcome.ret (Except.error e), calls)

/-- `DeviceBox::drop` by value (device_box.rs lines 220–235): `Ok` on a null
pointer with no call; otherwise `cuda_free`, handing the box (same pointer)
back next to the error on failure. -/
def DeviceBox.drop (env : NativeEnv) (b : DeviceBox) :
    DropResult DeviceBox × List NativeCall :=
  if b.ptr = 0 then
    (Except.ok (), [])
  else
    match cuda_free env b.ptr with
    | (Except.ok _, calls) => (Except.ok (), calls)
    | (Except.error e, calls) => (Except.error (e, ⟨b.ptr⟩), calls)

/-- `DeviceBox::into_device` (device_box.rs lines 177–182): hands the pointer
out; `mem::replace` leaves a null pointer in the box and `mem::forget`
suppresses its destructor.  The returned pair is (pointer, residual box). -/
def DeviceBox.into_device (b : DeviceBox) : Nat × DeviceBox :=
  (b.ptr, ⟨0⟩)

/-- `DeviceBox::from_device` (device_box.rs lines 154–156). -/
def DeviceBox.from_device (p : Nat) : DeviceBox := ⟨p⟩

/-- `DeviceBox::from_raw` (device_box.rs lines 126–130). -/
def DeviceBox.from_raw (p : Nat) : DeviceBox := ⟨p⟩

/-! ## Owned buffers: `DeviceBuffer` (src/memory/device/device_buffer.rs;
the older snapshot src/memory/device.rs lines 879–1030 has the same code) -/

/-- `DeviceBuffer<T>` (device_buffer.rs lines 14–17). -/
structure DeviceBuffer where
  buf : Nat
  capacity : Nat
deriving DecidableEq, Repr

/-- `DeviceBuffer::uninitialized` (device_buffer.rs lines 40–54):
`bytes = size.checked_mul(size_of::<T>()).ok_or(InvalidMemoryAllocation)?`;
a dangling non-null sentinel without any call when `bytes == 0`; otherwise
`cuda_malloc(bytes)` — note the source passes the *byte* count where
`cuda_malloc` expects an element count. -/
def DeviceBuffer.uninitialized (env : NativeEnv) (t : RustType) (size : Nat) :
    CudaResult DeviceBuffer × List NativeCall :=
  match checkedMul size t.size with
  | none => (Except.error CudaError.invalidMemoryAllocation, [])
  | some bytes =>
    if bytes > 0 then
      match cuda_malloc env t.size bytes with
      | (Except.ok p, calls) => (Except.ok ⟨p, size⟩, calls)
      | (Except.error e, calls) => (Except.error e, calls)
    else
      (Except.ok ⟨dangling t, size⟩, [])

/-- `Drop for DeviceBuffer` (device_buffer.rs lines 224–239): no-op on a null
pointer or when `capacity == 0` or `T` is zero-sized; otherwise
`cuda_free(ptr).expect(..)` — a panic if the free fails. -/
def DeviceBuffer.destructor (env : NativeEnv) (t : RustType) (b : DeviceBuffer) :
    POutcome Unit × List NativeCall :=
  if b.buf = 0 then
    (POutcome.ret (), [])
  else if b.capacity > 0 ∧ t.size > 0 then
    match cuda_free env b.buf with
    | (Except.ok _, calls) => (POutcome.ret (), calls)
    | (Except.error _, calls) =>
      (POutcome.panic "Failed to deallocate CUDA Device memory.", calls)
  else
    (POutcome.ret (), [])

/-- `DeviceBuffer::drop` by value (device_buffer.rs lines 158–178): `Ok`
without a free on the null or zero-size sentinel; otherwise `cuda_free`,
rebuilding the buffer from the same pointer and capacity on failure. -/
def DeviceBuffer.drop (env : NativeEnv) (t : RustType) (b : DeviceBuffer) :
    DropResult DeviceBuffer × List NativeCall :=
  if b.buf = 0 then
    (Except.ok (), [])
  else if b.capacity > 0 ∧ t.size > 0 then
    match cuda_free env b.buf with
    | (Except.ok _, calls) => (Except.ok (), calls)
    | (Except.error e, calls) => (Except.error (e, ⟨b.buf, b.capacity⟩), calls)
  else
    (Except.ok (), [])

/-! ## Slices and the copy-destination protocol (src/memory/device.rs) -/

/-- A borrowed `DeviceSlice<T>` view (`DeviceSlice<T>([T])`, a slice newtype):
its fat-pointer data — base device address and element count. -/
structure DeviceSlice where
  ptr : Nat
  len : Nat
deriving DecidableEq, Repr

/-- A borrowed host slice `&[T]`: base host address and element count. -/
structure HostSlice where
  ptr : Nat
  len : Nat
deriving DecidableEq, Repr

/-- The `assert!` message of the slice copies in src/memory/device.rs. -/
def lenMismatchMsg : String := "destination and source slices have different lengths"

/-- `CopyDestination<I>::copy_from for DeviceSlice` (device.rs lines 775–792):
assert equal lengths (panic on mismatch, before any native call), then one
`cuMemcpyHtoD` of `size_of::<T>() * len` bytes unless that is zero. -/
def DeviceSlice.copy_from_host (env : NativeEnv) (t : RustType)
    (self : DeviceSlice) (val : HostSlice) :
    POutcome (CudaResult Unit) × List NativeCall :=
  if self.len = val.len then
    let size := t.size * self.len
    if size ≠ 0 then
      match toResultCu (env.cuMemcpyHtoD self.ptr val.ptr size) with
      | Except.ok _ =>
        (POutcome.ret (Except.ok ()), [NativeCall.cuMemcpyHtoD self.ptr val.ptr size])
      | Except.error e =>
        (POutcome.ret (Except.error e), [NativeCall.cuMemcpyHtoD self.ptr val.ptr size])
    else
      (POutcome.ret (Except.ok ()), [])
  else
    (POutcome.panic lenMismatchMsg, [])

/-- `CopyDestination<I>::copy_to for DeviceSlice` (device.rs lines 794–808):
assert equal lengths, then one `cuMemcpyDtoH` unless the byte size is zero. -/
def DeviceSlice.copy_to_host (env : NativeEnv) (t : RustType)
    (self : DeviceSlice) (val : HostSlice) :
    POutcome (CudaResult Unit) × List NativeCall :=
  if self.len = val.len then
    let size := t.size * self.len
    if size ≠ 0 then
      match toResultCu (env.cuMemcpyDtoH val.ptr self.ptr size) with
      | Except.ok _ =>
        (POutcome.ret (Except.ok ()), [NativeCall.cuMemcpyDtoH val.ptr self.ptr size])
      | Except.error e =>
        (POutcome.ret (Except.error e), [NativeCall.cuMemcpyDtoH val.ptr self.ptr size])
    else
      (POutcome.ret (Except.ok ()), [])
  else
    (POutcome.panic lenMismatchMsg, [])

/-- `CopyDestination<DeviceSlice>::copy_from` (device.rs lines 811–824):
device-to-device, same length assertion first. -/
def DeviceSlice.copy_from_device (env : NativeEnv) (t : RustType)
    (self val : DeviceSlice) : POutcome (CudaResult Unit) × List NativeCall :=
  if self.len = val.len then
    let size := t.size * self.len
    if size ≠ 0 then
      match toResultCu (env.cuMemcpyDtoD self.ptr val.ptr size) with
      | Except.ok _ =>
        (POutcome.ret (Except.ok ()), [NativeCall.cuMemcpyDtoD self.ptr val.ptr size])
      | Except.error e =>
        (POutcome.ret (Except.error e), [NativeCall.cuMemcpyDtoD self.ptr val.ptr size])
    else
      (POutcome.ret (Except.ok ()), [])
  else
    (POutcome.panic lenMismatchMsg, [])

/-- `CopyDestination<DeviceSlice>::copy_to` (device.rs lines 826–839). -/
def DeviceSlice.copy_to_device (env : NativeEnv) (t : RustType)
    (self val : DeviceSlice) : POutcome (CudaResult Unit) × List NativeCall :=
  if self.len = val.len then
    let size := t.size * self.len
    if size ≠ 0 then
      match toResultCu (env.cuMemcpyDtoD val.ptr self.ptr size) with
      | Except.ok _ =>
        (POutcome.ret (Except.ok ()), [NativeCall.cuMemcpyDtoD val.ptr self.ptr size])
      | Except.error e =>
        (POutcome.ret (Except.error e), [NativeCall.cuMemcpyDtoD val.ptr self.ptr size])
    else
      (POutcome.ret (Except.ok ()), [])
  else
    (POutcome.panic lenMismatchMsg, [])

/-- `DeviceBuffer::from_slice` (device_buffer.rs lines 196–202):
`uninitialized(slice.len())` then `copy_from(slice)` through the buffer's
deref to `DeviceSlice` (base = `buf`, length = `capacity`); the `?` on a
failed copy drops the fresh buffer, running its destructor. -/
def DeviceBuffer.from_slice (env : NativeEnv) (t : RustType) (s : HostSlice) :
    POutcome (CudaResult DeviceBuffer) × List NativeCall :=
  match DeviceBuffer.uninitialized env t s.len with
  | (Except.ok b, calls) =>
    match DeviceSlice.copy_from_host env t ⟨b.buf, b.capacity⟩ s with
    | (POutcome.ret (Except.ok _), calls2) => (POutcome.ret (Except.ok b), calls ++ calls2)
    | (POutcome.ret (Except.error e), calls2) =>
      match DeviceBuffer.destructor env t b with
      | (POutcome.ret _, calls3) =>
        (POutcome.ret (Except.error e), calls ++ calls2 ++ calls3)
      | (POutcome.panic m, calls3) => (POutcome.panic m, calls ++ calls2 ++ calls3)
    | (POutcome.panic m, calls2) => (POutcome.panic m, calls ++ calls2)
  | (Except.error e, calls) => (POutcome.ret (Except.error e), calls)

/-- `DeviceSlice::split_at` (device.rs lines 454–462), which delegates to
core's `<[T]>::split_at(mid)`: on `mid <= len` the two halves of the fat
pointer — `(base, mid)` and `(base + mid * size_of::<T>(), len - mid)` —
and a panic when `mid > len`. -/
def DeviceSlice.split_at (t : RustType) (s : DeviceSlice) (mid : Nat) :
    POutcome (DeviceSlice × DeviceSlice) :=
  if mid ≤ s.len then
    POutcome.ret (⟨s.ptr, mid⟩, ⟨s.ptr + mid * t.size, s.len - mid⟩)
  else
    POutcome.panic "mid > len"

/-- The device addresses of the elements of a slice view, in index order. -/
def DeviceSlice.elemAddrs (t : RustType) (s : DeviceSlice) : List Nat :=
  (List.range s.len).map (fun i => s.ptr + i * t.size)

/-! ## `LockedBox` (src/memory/locked.rs) and `UnifiedBox` (src/memory/unified.rs) -/

/-- `LockedBox<T>` (locked.rs lines 18–20). -/
structure LockedBox where
  ptr : Nat
deriving DecidableEq, Repr

/-- `LockedBox::uninitialized` (locked.rs lines 62–71): null pointer and no
call for zero-sized `T`, otherwise `cuda_malloc_locked(1)`. -/
def LockedBox.uninitialized (env : NativeEnv) (t : RustType) :
    CudaResult LockedBox × List NativeCall :=
  if t.size = 0 then
    (Except.ok ⟨0⟩, [])
  else
    match cuda_malloc_locked env t.size 1 with
    | (Except.ok p, calls) => (Except.ok ⟨p⟩, calls)
    | (Except.error e, calls) => (Except.error e, calls)

/-- `LockedBox::new` (locked.rs lines 37–41): `uninitialized()?`, then an
*unconditional* `core::ptr::write(locked_box.ptr, val)`.  The third component
lists the host addresses written through. -/
def LockedBox.new (env : NativeEnv) (t : RustType) :
    CudaResult LockedBox × List NativeCall × List Nat :=
  match LockedBox.uninitialized env t with
  | (Except.ok b, calls) => (Except.ok b, calls, [b.ptr])
  | (Except.error e, calls) => (Except.error e, calls, [])

/-- `LockedBox::drop` by value (locked.rs lines 195–210). -/
def LockedBox.drop (env : NativeEnv) (b : LockedBox) :
    DropResult LockedBox × List NativeCall :=
  if b.ptr = 0 then
    (Except.ok (), [])
  else
    match cuda_free_locked env b.ptr with
    | (Except.ok _, calls) => (Except.ok (), calls)
    | (Except.error e, calls) => (Except.error (e, ⟨b.ptr⟩), calls)

/-- `Drop for LockedBox` (locked.rs lines 212–224): panics on free failure. -/
def LockedBox.destructor (env : NativeEnv) (b : LockedBox) :
    POutcome Unit × List NativeCall :=
  if b.ptr = 0 then
    (POutcome.ret (), [])
  else
    match cuda_free_locked env b.ptr with
    | (Except.ok _, calls) => (POutcome.ret (), calls)
    | (Except.error _, calls) => (POutcome.panic "Failed to deallocate CUDA memory.", calls)

/-- `UnifiedBox<T>` (unified.rs lines 22–25). -/
structure UnifiedBox where
  ptr : Nat
deriving DecidableEq, Repr

/-- `UnifiedBox::uninitialized` (unified.rs lines 74–83). -/
def UnifiedBox.uninitialized (env : NativeEnv) (t : RustType) :
    CudaResult UnifiedBox × List NativeCall :=
  if t.size = 0 then
    (Except.ok ⟨0⟩, [])
  else
    match cuda_malloc_unified env t.size 1 with
    | (Except.ok p, calls) => (Except.ok ⟨p⟩, calls)
    | (Except.error e, calls) => (Except.error e, calls)

/-- `UnifiedBox::new` (unified.rs lines 41–51): *short-circuits* for a
zero-sized `T` — it returns the null-sentinel box without writing; otherwise
`uninitialized()?` then `*ubox = val` (a write through the box pointer).
The third component lists the host addresses written through. -/
def UnifiedBox.new (env : NativeEnv) (t : RustType) :
    CudaResult UnifiedBox × List NativeCall × List Nat :=
  if t.size = 0 then
    (Except.ok ⟨0⟩, [], [])
  else
    match UnifiedBox.uninitialized env t with
    | (Except.ok b, calls) => (Except.ok b, calls, [b.ptr])
    | (Except.error e, calls) => (Except.error e, calls, [])

/-! ## `Stream` and launch-dimension value types (src/stream.rs) -/

/-- `GridSize` (stream.rs lines 21–29); the `u32` dimensions are modelled as
`Nat` (the conversions perform no arithmetic). -/
structure GridSize where
  x : Nat
  y : Nat
  z : Nat
deriving DecidableEq, Repr

/-- `GridSize::x` (stream.rs lines 32–34). -/
def GridSize.ofX (x : Nat) : GridSize := ⟨x, 1, 1⟩

/-- `GridSize::xy` (stream.rs lines 37–39). -/
def GridSize.ofXY (x y : Nat) : GridSize := ⟨x, y, 1⟩

/-- `GridSize::xyz` (stream.rs lines 42–44). -/
def GridSize.ofXYZ (x y z : Nat) : GridSize := ⟨x, y, z⟩

/-- `From<u32> for GridSize` (stream.rs lines 46–50). -/
def GridSize.fromU32 (x : Nat) : GridSize := GridSize.ofX x

/-- `From<(u32, u32)> for GridSize` (stream.rs lines 51–55). -/
def GridSize.fromPair (p : Nat × Nat) : GridSize := GridSize.ofXY p.1 p.2

/-- `From<(u32, u32, u32)> for GridSize` (stream.rs lines 56–60). -/
def GridSize.fromTriple (p : Nat × Nat × Nat) : GridSize :=
  GridSize.ofXYZ p.1 p.2.1 p.2.2

/-- `BlockSize` (stream.rs lines 62–71). -/
structure BlockSize where
  x : Nat
  y : Nat
  z : Nat
deriving DecidableEq, Repr

/-- `BlockSize::x` (stream.rs lines 74–76). -/
def BlockSize.ofX (x : Nat) : BlockSize := ⟨x, 1, 1⟩

/-- `BlockSize::xy` (stream.rs lines 79–81). -/
def BlockSize.ofXY (x y : Nat) : BlockSize := ⟨x, y, 1⟩

/-- `BlockSize::xyz` (stream.rs lines 84–86). -/
def BlockSize.ofXYZ (x y z : Nat) : BlockSize := ⟨x, y, z⟩

/-- `From<u32> for BlockSize` (stream.rs lines 88–92). -/
def BlockSize.fromU32 (x : Nat) : BlockSize := BlockSize.ofX x

/-- `From<(u32, u32)> for BlockSize` (stream.rs lines 93–97). -/
def BlockSize.fromPair (p : Nat × Nat) : BlockSize := BlockSize.ofXY p.1 p.2

/-- `From<(u32, u32, u32)> for BlockSize` (stream.rs lines 98–102). -/
def BlockSize.fromTriple (p : Nat × Nat × Nat) : BlockSize :=
  BlockSize.ofXYZ p.1 p.2.1 p.2.2

/-- `Stream` (stream.rs lines 128–131): one native queue handle, null once
destroyed. -/
structure Stream where
  inner : Nat
deriving DecidableEq, Repr

/-- `Drop for Stream` (stream.rs lines 266–278): no-op on a null handle;
otherwise `cuStreamDestroy_v2(inner).toResult().unwrap()` — a panic when the
native destroy fails. -/
def Stream.destructor (env : NativeEnv) (s : Stream) :
    POutcome Unit × List NativeCall :=
  if s.inner = 0 then
    (POutcome.ret (), [])
  else
    match toResultCu (env.cuStreamDestroy s.inner) with
    | Except.ok _ => (POutcome.ret (), [NativeCall.cuStreamDestroy s.inner])
    | Except.error _ =>
      (POutcome.panic "called Result::unwrap on an Err value", [NativeCall.cuStreamDestroy s.inner])

/-- Modelled from the spec: `Stream::drop` (the explicit drop-by-value
destruction of a stream) is absent from src/stream.rs, which holds only the
struct and the panicking `Drop` impl.  Per the spec (§4.6: "explicit
`drop`-by-value returns `Err((error, stream))` on failure (stream remains
usable)") and the `drop`-by-value pattern of the sibling containers
(module.rs lines 196–212, event.rs lines 316–333): `Ok` on a null handle
with no call; otherwise the native destroy, handing the stream back with the
same handle next to the error on failure. -/
def Stream.drop (env : NativeEnv) (s : Stream) :
    DropResult Stream × List NativeCall :=
  if s.inner = 0 then
    (Except.ok (), [])
  else
    match toResultCu (env.cuStreamDestroy s.inner) with
    | Except.ok _ => (Except.ok (), [NativeCall.cuStreamDestroy s.inner])
    | Except.error e => (Except.error (e, ⟨s.inner⟩), [NativeCall.cuStreamDestroy s.inner])

/-! ## Theorems -/

theorem USIZE_pos : 0 < USIZE := by norm_num [USIZE]

/-- Under a zero or overflowing byte size, `unwrap_or(0)` yields zero. -/
theorem checkedMul_getD_eq_zero {a b : Nat} (h : a * b = 0 ∨ USIZE ≤ a * b) :
    (checkedMul a b).getD 0 = 0 := by
  rcases h with h0 | hof
  · simp [checkedMul, h0, USIZE_pos]
  · simp [checkedMul, Nat.not_lt.mpr hof]

/-- C2: each raw allocation function (`cuda_malloc`, `cuda_malloc_unified`,
`cuda_malloc_locked`) returns the `InvalidValue` runtime error, issuing no
native call, whenever `count * size_of::<T>()` is zero (count zero or `T`
zero-sized) or the multiplication overflows `usize`; in particular
`cuda_malloc::<u64>(usize::MAX - 1)` fails with that local error. -/
theorem c2_raw_alloc_rejects_zero_and_overflow (env : NativeEnv)
    (tSize count : Nat) (h : count * tSize = 0 ∨ USIZE ≤ count * tSize) :
    cuda_malloc env tSize count
        = (Except.error (CudaError.cudaRtError CudaRtCode.invalidValue), []) ∧
    cuda_malloc_unified env tSize count
        = (Except.error (CudaError.cudaRtError CudaRtCode.invalidValue), []) ∧
    cuda_malloc_locked env tSize count
        = (Except.error (CudaError.cudaRtError CudaRtCode.invalidValue), []) ∧
    cuda_malloc env 8 (USIZE - 2)
        = (Except.error (CudaError.cudaRtError CudaRtCode.invalidValue), []) := by
  have hz := checkedMul_getD_eq_zero h
  have hof : USIZE ≤ (USIZE - 2) * 8 := by norm_num [USIZE]
  have hz2 := checkedMul_getD_eq_zero (Or.inr hof)
  refine ⟨?_, ?_, ?_, ?_⟩ <;>
    simp [cuda_malloc, cuda_malloc_unified, cuda_malloc_locked, hz, hz2]

/-- C2 witness: `cuda_malloc::<u64>(0)` hits the guard. -/
theorem c2_raw_alloc_rejects_zero_and_overflow_witness :
    ((0 : Nat) * 8 = 0 ∨ USIZE ≤ 0 * 8) ∧
    cuda_malloc envOk 8 0
        = (Except.error (CudaError.cudaRtError CudaRtCode.invalidValue), []) :=
  ⟨Or.inl rfl, (c2_raw_alloc_rejects_zero_and_overflow envOk 8 0 (Or.inl rfl)).1⟩

/-- C1 (the claim fails on the code): `DeviceBuffer::uninitialized(5)` for
`T = u64` does not request `5 * size_of::<u64>() = 40` bytes from the native
allocator: it passes the byte count 40 to `cuda_malloc`, which takes an
element count and multiplies by `size_of::<u64>()` again, so the one native
`cudaMalloc` call requests `320 = 5 * 8 * 8` bytes. -/
theorem c1_uninitialized_requests_squared_bytes :
    DeviceBuffer.uninitialized envOk u64T 5
        = (Except.ok ⟨4096, 5⟩, [NativeCall.cudaMalloc 320]) ∧
    320 = 5 * u64T.size * u64T.size ∧ 5 * u64T.size = 40 ∧ (320 : Nat) ≠ 40 :=
  ⟨rfl, rfl, rfl, by decide⟩

/-- C9: the `From` conversions of `GridSize` and `BlockSize` default every
unset dimension to 1: a bare integer gives `(x, 1, 1)`, a pair `(x, y, 1)`,
a triple `(x, y, z)`. -/
theorem c9_grid_block_from_defaults (x y z : Nat) :
    GridSize.fromU32 x = ⟨x, 1, 1⟩ ∧
    GridSize.fromPair (x, y) = ⟨x, y, 1⟩ ∧
    GridSize.fromTriple (x, y, z) = ⟨x, y, z⟩ ∧
    BlockSize.fromU32 x = ⟨x, 1, 1⟩ ∧
    BlockSize.fromPair (x, y) = ⟨x, y, 1⟩ ∧
    BlockSize.fromTriple (x, y, z) = ⟨x, y, z⟩ :=
  ⟨rfl, rfl, rfl, rfl, rfl, rfl⟩

/-- C3: the slice copies (`copy_from`/`copy_to`, host↔device and
device↔device) panic — they do not return an error — when the element counts
differ, issuing no native call; with equal counts the assertion passes and
the operation does not panic. -/
theorem c3_copy_length_mismatch_panics (env : NativeEnv) (t : RustType)
    (self other : DeviceSlice) (host : HostSlice) :
    (self.len ≠ host.len →
      DeviceSlice.copy_from_host env t self host = (POutcome.panic lenMismatchMsg, []) ∧
      DeviceSlice.copy_to_host env t self host = (POutcome.panic lenMismatchMsg, [])) ∧
    (self.len ≠ other.len →
      DeviceSlice.copy_from_device env t self other = (POutcome.panic lenMismatchMsg, []) ∧
      DeviceSlice.copy_to_device env t self other = (POutcome.panic lenMismatchMsg, [])) ∧
    (self.len = host.len →
      (DeviceSlice.copy_from_host env t self host).1.isPanic = false ∧
      (DeviceSlice.copy_to_host env t self host).1.isPanic = false) ∧
    (self.len = other.len →
      (DeviceSlice.copy_from_device env t self other).1.isPanic = false ∧
      (DeviceSlice.copy_to_device env t self other).1.isPanic = false) := by
  refine ⟨fun h => ⟨?_, ?_⟩, fun h => ⟨?_, ?_⟩, fun h => ⟨?_, ?_⟩, fun h => ⟨?_, ?_⟩⟩ <;>
    simp only [DeviceSlice.copy_from_host, DeviceSlice.copy_to_host,
      DeviceSlice.copy_from_device, DeviceSlice.copy_to_device, h,
      ite_true, ite_false, if_neg, not_false_eq_true] <;>
    (try simp [h]) <;>
    (try (split <;> first | rfl | (split <;> rfl)))

/-- C3 witness: a 5-element device slice against a 4-element host slice
panics; against a 5-element host slice it does not. -/
theorem c3_copy_length_mismatch_panics_witness :
    ((5 : Nat) ≠ 4 ∧
      DeviceSlice.copy_from_host envOk u64T ⟨4096, 5⟩ ⟨64, 4⟩
          = (POutcome.panic lenMismatchMsg, [])) ∧
    ((5 : Nat) = 5 ∧
      (DeviceSlice.copy_from_host envOk u64T ⟨4096, 5⟩ ⟨64, 5⟩).1.isPanic = false) :=
  ⟨⟨by decide,
      ((c3_copy_length_mismatch_panics envOk u64T ⟨4096, 5⟩ ⟨0, 5⟩ ⟨64, 4⟩).1
        (by decide)).1⟩,
    ⟨rfl,
      ((c3_copy_length_mismatch_panics envOk u64T ⟨4096, 5⟩ ⟨0, 5⟩ ⟨64, 5⟩).2.2.1
        rfl).1⟩⟩

/-- C4: the explicit drop-by-value of `DeviceBox`, `DeviceBuffer` and
`LockedBox` either returns `Ok(())` (after a successful native free, or with
no free at all for the null / zero-size sentinel), or returns
`Err((error, container))` where the handed-back container has exactly the
original pointer (and capacity). -/
theorem c4_drop_by_value_returns_resource (env : NativeEnv) (t : RustType)
    (b : DeviceBox) (buf : DeviceBuffer) (lb : LockedBox) :
    (match DeviceBox.drop env b with
      | (Except.ok _, calls) =>
          (b.ptr = 0 ∧ calls = []) ∨
          (env.cudaFree b.ptr = CudaRtCode.success ∧ calls = [NativeCall.cudaFree b.ptr])
      | (Except.error (_, b'), calls) =>
          b' = b ∧ calls = [NativeCall.cudaFree b.ptr]) ∧
    (match DeviceBuffer.drop env t buf with
      | (Except.ok _, calls) =>
          (buf.buf = 0 ∧ calls = []) ∨
          ((buf.capacity = 0 ∨ t.size = 0) ∧ calls = []) ∨
          (env.cudaFree buf.buf = CudaRtCode.success ∧ calls = [NativeCall.cudaFree buf.buf])
      | (Except.error (_, buf'), calls) =>
          buf' = buf ∧ calls = [NativeCall.cudaFree buf.buf]) ∧
    (match LockedBox.drop env lb with
      | (Except.ok _, calls) =>
          (lb.ptr = 0 ∧ calls = []) ∨
          (env.cudaFreeHost lb.ptr = CudaRtCode.success ∧
            calls = [NativeCall.cudaFreeHost lb.ptr])
      | (Except.error (_, lb'), calls) =>
          lb' = lb ∧ calls = [NativeCall.cudaFreeHost lb.ptr]) := by
  refine ⟨?_, ?_, ?_⟩
  · by_cases hp : b.ptr = 0
    · simp [DeviceBox.drop, hp]
    · by_cases hf : env.cudaFree b.ptr = CudaRtCode.success
      · simp [DeviceBox.drop, cuda_free, toResultRt, hp, hf]
      · simp [DeviceBox.drop, cuda_free, toResultRt, hp, hf]
  · by_cases hp : buf.buf = 0
    · simp [DeviceBuffer.drop, hp]
    · by_cases hc : buf.capacity > 0 ∧ t.size > 0
      · by_cases hf : env.cudaFree buf.buf = CudaRtCode.success
        · simp [DeviceBuffer.drop, cuda_free, toResultRt, hp, hc, hf]
        · simp [DeviceBuffer.drop, cuda_free, toResultRt, hp, hc, hf]
      · have : buf.capacity = 0 ∨ t.size = 0 := by omega
        simp [DeviceBuffer.drop, hp, hc, this]
  · by_cases hp : lb.ptr = 0
    · simp [LockedBox.drop, hp]
    · by_cases hf : env.cudaFreeHost lb.ptr = CudaRtCode.success
      · simp [LockedBox.drop, cuda_free_locked, toResultRt, hp, hf]
      · simp [LockedBox.drop, cuda_free_locked, toResultRt, hp, hf]

/-- C5: for a zero-sized `T`, constructing a `DeviceBox` (`new`,
`uninitialized`) or `DeviceBuffer` (`uninitialized`, `from_slice`) makes no
native call — the box holds the null pointer, the buffer a non-null dangling
sentinel — and destroying either (destructor or explicit drop) makes no
native free call. -/
theorem c5_zero_sized_no_native_calls (env : NativeEnv) (t : RustType)
    (h : t.size = 0) (valAddr n : Nat) (s : HostSlice) :
    DeviceBox.uninitialized env t = (Except.ok ⟨0⟩, []) ∧
    DeviceBox.new env t valAddr = (POutcome.ret (Except.ok ⟨0⟩), []) ∧
    DeviceBuffer.uninitialized env t n = (Except.ok ⟨dangling t, n⟩, []) ∧
    DeviceBuffer.from_slice env t s
        = (POutcome.ret (Except.ok ⟨dangling t, s.len⟩), []) ∧
    dangling t ≠ 0 ∧
    DeviceBox.destructor env ⟨0⟩ = (POutcome.ret (), []) ∧
    DeviceBox.drop env ⟨0⟩ = (Except.ok (), []) ∧
    DeviceBuffer.destructor env t ⟨dangling t, n⟩ = (POutcome.ret (), []) ∧
    DeviceBuffer.drop env t ⟨dangling t, n⟩ = (Except.ok (), []) := by
  have hd : dangling t ≠ 0 := Nat.pos_iff_ne_zero.mp t.align_pos
  have hbuf : ∀ m : Nat, DeviceBuffer.uninitialized env t m
      = (Except.ok ⟨dangling t, m⟩, []) := by
    intro m
    simp [DeviceBuffer.uninitialized, checkedMul, h, USIZE_pos]
  refine ⟨?_, ?_, hbuf n, ?_, hd, ?_, ?_, ?_, ?_⟩
  · simp [DeviceBox.uninitialized, h]
  · simp [DeviceBox.new, DeviceBox.uninitialized, DeviceBox.copy_from, h]
  · simp [DeviceBuffer.from_slice, hbuf s.len, DeviceSlice.copy_from_host, h]
  · simp [DeviceBox.destructor]
  · simp [DeviceBox.drop]
  · simp [DeviceBuffer.destructor, hd, h]
  · simp [DeviceBuffer.drop, hd, h]

/-- C5 witness: the zero-sized type at a concrete driver. -/
theorem c5_zero_sized_no_native_calls_witness :
    zstT.size = 0 ∧
    DeviceBox.new envOk zstT 0 = (POutcome.ret (Except.ok ⟨0⟩), []) ∧
    DeviceBuffer.uninitialized envOk zstT 3 = (Except.ok ⟨dangling zstT, 3⟩, []) :=
  ⟨rfl,
    (c5_zero_sized_no_native_calls envOk zstT rfl 0 3 ⟨500, 2⟩).2.1,
    (c5_zero_sized_no_native_calls envOk zstT rfl 0 3 ⟨500, 2⟩).2.2.1⟩

/-- C6 (with `Stream::drop` modelled from the spec, being absent from
src/stream.rs): when the native destroy of a live stream fails, the explicit
drop-by-value returns `Err((error, stream))` with the very same stream (same
non-null handle, so still usable), while the scope-end destructor panics. -/
theorem c6_stream_drop_vs_destructor (env : NativeEnv) (s : Stream)
    (hn : s.inner ≠ 0) (hc : env.cuStreamDestroy s.inner ≠ 0) :
    Stream.drop env s
        = (Except.error (CudaError.cudaError (env.cuStreamDestroy s.inner), s),
            [NativeCall.cuStreamDestroy s.inner]) ∧
    Stream.destructor env s
        = (POutcome.panic "called Result::unwrap on an Err value",
            [NativeCall.cuStreamDestroy s.inner]) := by
  constructor <;> simp [Stream.drop, Stream.destructor, toResultCu, hn, hc]

/-- C6 witness: a live stream under a driver whose destroy fails with
code 700. -/
theorem c6_stream_drop_vs_destructor_witness :
    ((5 : Nat) ≠ 0 ∧ envFreeFails.cuStreamDestroy 5 ≠ 0) ∧
    Stream.drop envFreeFails ⟨5⟩
        = (Except.error (CudaError.cudaError 700, ⟨5⟩),
            [NativeCall.cuStreamDestroy 5]) :=
  ⟨⟨by decide, by decide⟩,
    (c6_stream_drop_vs_destructor envFreeFails ⟨5⟩ (by decide) (by decide)).1⟩

/-- C7: `into_device` hands out exactly the box's former pointer and leaves
a residual whose destruction paths free nothing (destructor and explicit
drop are both free-less no-ops); reconstituting the pointer (via
`from_device` or `from_raw`) into a new box and destroying it issues exactly
one native free of that pointer. -/
theorem c7_into_device_no_double_free (env : NativeEnv) (b : DeviceBox)
    (hb : b.ptr ≠ 0) (hfree : env.cudaFree b.ptr = CudaRtCode.success) :
    (DeviceBox.into_device b).1 = b.ptr ∧
    (DeviceBox.into_device b).2.ptr = 0 ∧
    DeviceBox.destructor env (DeviceBox.into_device b).2 = (POutcome.ret (), []) ∧
    DeviceBox.drop env (DeviceBox.into_device b).2 = (Except.ok (), []) ∧
    DeviceBox.destructor env (DeviceBox.from_device (DeviceBox.into_device b).1)
        = (POutcome.ret (), [NativeCall.cudaFree b.ptr]) ∧
    DeviceBox.destructor env (DeviceBox.from_raw (DeviceBox.into_device b).1)
        = (POutcome.ret (), [NativeCall.cudaFree b.ptr]) := by
  refine ⟨rfl, rfl, ?_, ?_, ?_, ?_⟩
  · simp [DeviceBox.destructor, DeviceBox.into_device]
  · simp [DeviceBox.drop, DeviceBox.into_device]
  · simp [DeviceBox.destructor, DeviceBox.from_device, DeviceBox.into_device,
      cuda_free, toResultRt, hb, hfree]
  · simp [DeviceBox.destructor, DeviceBox.from_raw, DeviceBox.into_device,
      cuda_free, toResultRt, hb, hfree]

/-- C7 witness: a box owning pointer 4096 under the all-succeeding driver. -/
theorem c7_into_device_no_double_free_witness :
    ((4096 : Nat) ≠ 0 ∧ envOk.cudaFree 4096 = CudaRtCode.success) ∧
    DeviceBox.destructor envOk (DeviceBox.from_device (DeviceBox.into_device ⟨4096⟩).1)
        = (POutcome.ret (), [NativeCall.cudaFree 4096]) :=
  ⟨⟨by decide, rfl⟩,
    (c7_into_device_no_double_free envOk ⟨4096⟩ (by decide) rfl).2.2.2.2.1⟩

/-- C8: for `mid ≤ len`, `split_at(mid)` yields sub-slices of lengths `mid`
and `len - mid` (summing to `len`) that cover the element addresses of
indices `[0, mid)` and `[mid, len)` of the original, in order; for
`mid > len` it panics. -/
theorem c8_split_at_covers (t : RustType) (s : DeviceSlice) (mid : Nat) :
    (mid ≤ s.len →
      ∃ left right,
        DeviceSlice.split_at t s mid = POutcome.ret (left, right) ∧
        left.len = mid ∧ right.len = s.len - mid ∧
        left.len + right.len = s.len ∧
        DeviceSlice.elemAddrs t left ++ DeviceSlice.elemAddrs t right
          = DeviceSlice.elemAddrs t s) ∧
    (s.len < mid → DeviceSlice.split_at t s mid = POutcome.panic "mid > len") := by
  constructor
  · intro h
    refine ⟨⟨s.ptr, mid⟩, ⟨s.ptr + mid * t.size, s.len - mid⟩, ?_, rfl, rfl, by
      simp; omega, ?_⟩
    · simp [DeviceSlice.split_at, h]
    · have hsplit : List.range s.len
          = List.range mid ++ (List.range (s.len - mid)).map (mid + ·) := by
        conv_lhs => rw [show s.len = mid + (s.len - mid) by omega]
        exact List.range_add mid (s.len - mid)
      simp only [DeviceSlice.elemAddrs]
      rw [hsplit, List.map_append, List.map_map]
      congr 1
      refine List.map_congr_left ?_
      intro i _
      simp only [Function.comp]
      ring
  · intro h
    simp [DeviceSlice.split_at, Nat.not_le.mpr h]

/-- C8 witness: a 6-element slice split at 3 — halves of lengths 3 and 3
covering the original addresses in order. -/
theorem c8_split_at_covers_witness :
    (3 : Nat) ≤ 6 ∧
    ∃ left right,
      DeviceSlice.split_at u64T ⟨4096, 6⟩ 3 = POutcome.ret (left, right) ∧
      left.len = 3 ∧ right.len = 3 ∧ left.len + right.len = 6 ∧
      DeviceSlice.elemAddrs u64T left ++ DeviceSlice.elemAddrs u64T right
        = DeviceSlice.elemAddrs u64T ⟨4096, 6⟩ :=
  ⟨by decide, (c8_split_at_covers u64T ⟨4096, 6⟩ 3).1 (by decide)⟩

/-- C10: for a zero-sized `T`, `LockedBox::uninitialized` returns the null
sentinel and `LockedBox::new` still performs its initializing write through
that null pointer, whereas `UnifiedBox::new` short-circuits and writes
nothing. -/
theorem c10_locked_new_writes_through_null (env : NativeEnv) (t : RustType)
    (h : t.size = 0) :
    LockedBox.uninitialized env t = (Except.ok ⟨0⟩, []) ∧
    LockedBox.new env t = (Except.ok ⟨0⟩, [], [0]) ∧
    UnifiedBox.new env t = (Except.ok ⟨0⟩, [], []) := by
  refine ⟨?_, ?_, ?_⟩ <;>
    simp [LockedBox.uninitialized, LockedBox.new, UnifiedBox.new, h]

/-- C10 witness: the zero-sized type under the all-succeeding driver. -/
theorem c10_locked_new_writes_through_null_witness :
    zstT.size = 0 ∧ LockedBox.new envOk zstT = (Except.ok ⟨0⟩, [], [0]) :=
  ⟨rfl, (c10_locked_new_writes_through_null envOk zstT rfl).2.1⟩

end RustaCuda
